import Mathlib

/-!
# Verification of the nimbus.io front-end core against its specification

Shallow embedding of the repository's core components:

* `src/data_reader/reader.py` — the Segment Reader (`retrieve_one_sequence`,
  `generate_all_sequence_rows`);
* `src/web_director/web_director_main.py` — the Director/Router (`Router.route`,
  the supervised DB interaction, and the `proxy` entry point with its
  Host-header regex);
* `src/diyapi_web_server/amqp_archiver.py` — the fan-out archiver
  (`AMQPArchiver.archive_entire`).

External collaborators (PostgreSQL, the filesystem, the AMQP bus, gevent)
are modelled as explicit oracles / state passed to the embedded functions.
Python 2 details that matter (truthiness, `deque.rotate(1)` rotating right,
`list.pop()` taking the last element, integer division, `int('')` raising
`ValueError`, short `file.read` results) are modelled faithfully.
-/

set_option maxRecDepth 100000

namespace Nimbus

/-! ## Segment Reader (`src/data_reader/reader.py`) -/

/-- A row of `nimbusio_node.segment_sequence` (the fields the reader code
touches; the content-hash columns are never read by `reader.py`). -/
structure SegmentSequenceRow where
  segment_id : Nat
  sequence_num : Nat
  value_file_id : Nat
  value_file_offset : Nat
  size : Nat
  deriving DecidableEq, Repr

/-- A row of `nimbusio_node.segment` (the fields the reader's queries filter on). -/
structure SegmentRow where
  id : Nat
  unified_id : Nat
  conjoined_part : Nat
  segment_num : Nat
  handoff_node_id : Option Nat
  status : Char
  deriving DecidableEq, Repr

/-- The storage-node database visible to the reader. -/
structure NodeDB where
  segments : List SegmentRow
  sequences : List SegmentSequenceRow

/-- `reader.py` lines 219-221: number of encoded blocks in a sequence of
`size` bytes (`size / encoded_block_slice_size`, plus one when the division
has a remainder; Python 2 `/` on ints is floor division). -/
def blocks_in_sequence (block_size size : Nat) : Nat :=
  size / block_size + (if size % block_size ≠ 0 then 1 else 0)

/-- The scalar subquery shared by the reader's sequence queries: the segment
with the given coordinates, `handoff_node_id IS NULL`, `status = 'F'`.
(SQL errors on several matching rows; the claims' databases have at most one,
and we model `find?` = the unique match.) -/
def find_segment (db : NodeDB) (unified_id conjoined_part segment_num : Nat) :
    Option SegmentRow :=
  db.segments.find? (fun seg =>
    seg.unified_id == unified_id &&
    seg.conjoined_part == conjoined_part &&
    seg.segment_num == segment_num &&
    seg.handoff_node_id == none &&
    seg.status == 'F')

/-- The handoff variant of the subquery: `handoff_node_id = %s`. -/
def find_handoff_segment (db : NodeDB)
    (unified_id conjoined_part segment_num handoff_node_id : Nat) :
    Option SegmentRow :=
  db.segments.find? (fun seg =>
    seg.unified_id == unified_id &&
    seg.conjoined_part == conjoined_part &&
    seg.segment_num == segment_num &&
    seg.handoff_node_id == some handoff_node_id &&
    seg.status == 'F')

/-- `_sequence_row` (`reader.py` lines 30-66): the sequence row for a
non-handoff finalized segment at the given coordinates; `fetch_one_row`
returns the first matching row or `None`. -/
def _sequence_row (db : NodeDB)
    (segment_unified_id segment_conjoined_part segment_num sequence_num : Nat) :
    Option SegmentSequenceRow :=
  match find_segment db segment_unified_id segment_conjoined_part segment_num with
  | none => none
  | some seg =>
    db.sequences.find? (fun q => q.segment_id == seg.id && q.sequence_num == sequence_num)

/-- Insert a sequence row into a list already ordered by `sequence_num`. -/
def insert_by_sequence_num (r : SegmentSequenceRow) :
    List SegmentSequenceRow → List SegmentSequenceRow
  | [] => [r]
  | x :: xs =>
    if r.sequence_num ≤ x.sequence_num then r :: x :: xs
    else x :: insert_by_sequence_num r xs

/-- `ORDER BY sequence_num ASC` (stable insertion sort). -/
def order_by_sequence_num : List SegmentSequenceRow → List SegmentSequenceRow
  | [] => []
  | x :: xs => insert_by_sequence_num x (order_by_sequence_num xs)

/-- `_all_sequence_rows_for_segment` (`reader.py` lines 68-96):
all sequence rows of the matching segment, `ORDER BY sequence_num ASC`. -/
def _all_sequence_rows_for_segment (db : NodeDB)
    (segment_unified_id segment_conjoined_part segment_num : Nat) :
    List SegmentSequenceRow :=
  match find_segment db segment_unified_id segment_conjoined_part segment_num with
  | none => []
  | some seg =>
    order_by_sequence_num (db.sequences.filter (fun q => q.segment_id == seg.id))

/-- `_all_sequence_rows_for_handoff_segment` (`reader.py` lines 98-127). -/
def _all_sequence_rows_for_handoff_segment (db : NodeDB)
    (segment_unified_id segment_conjoined_part segment_num handoff_node_id : Nat) :
    List SegmentSequenceRow :=
  match find_handoff_segment db segment_unified_id segment_conjoined_part
      segment_num handoff_node_id with
  | none => []
  | some seg =>
    order_by_sequence_num (db.sequences.filter (fun q => q.segment_id == seg.id))

/-- The failures `retrieve_one_sequence` can raise. -/
inductive ReaderFailure where
  /-- `ReaderError("No sequence ...")` — the spec's NotFound. -/
  | readerError
  /-- `IOError` from `open()` on a missing value file. -/
  | ioError
  deriving DecidableEq, Repr

/-- The local filesystem of value files, keyed by `value_file_id`
(`compute_value_file_path` is a pure injective map from ids to paths, so we
index files by id directly); `none` means the file does not exist. -/
abbrev ValueFiles := Nat → Option (List Nat)

/-- `Reader.retrieve_one_sequence` (`reader.py` lines 150-183).
`open` raises `IOError` on a missing file; `seek(offset)` then `read(size)`
returns the next `size` bytes, or fewer near end of file — the source does
NOT check the length of this read. -/
def retrieve_one_sequence (db : NodeDB) (fs : ValueFiles)
    (segment_unified_id segment_conjoined_part segment_num sequence_num : Nat) :
    Except ReaderFailure (SegmentSequenceRow × List Nat) :=
  match _sequence_row db segment_unified_id segment_conjoined_part
      segment_num sequence_num with
  | none => .error .readerError
  | some sequence_row =>
    match fs sequence_row.value_file_id with
    | none => .error .ioError
    | some contents =>
      .ok (sequence_row,
           (contents.drop sequence_row.value_file_offset).take sequence_row.size)

/-- The skip loop of `generate_all_sequence_rows` (`reader.py` lines 214-234):
walk the rows accumulating `block_count`; while `block_count < block_offset`
increment `skip_count`; at the first row crossing the offset compute
`offset_residue` and break.  Returns `(skip_count, offset_residue)`. -/
def skip_scan (block_size block_offset : Nat) :
    List SegmentSequenceRow → Nat → Nat → Nat × Nat
  | [], _, skip_count => (skip_count, 0)
  | row :: rest, block_count, skip_count =>
    let bc := block_count + blocks_in_sequence block_size row.size
    if bc < block_offset then
      skip_scan block_size block_offset rest bc (skip_count + 1)
    else
      (skip_count,
       if 0 < block_offset then
         (if skip_count = 0 then block_offset else bc - block_offset)
       else 0)

/-- Why the item loop of the generator terminated. -/
inductive GenAbort where
  /-- `open()` raised `IOError` (value file missing). -/
  | ioError
  /-- `assert len(encoded_segment) == sequence_row.size` failed. -/
  | assertFailed
  deriving DecidableEq, Repr

/-- The item loop of `generate_all_sequence_rows` (`reader.py` lines 239-251):
for each remaining row, open its value file if not already cached in
`open_value_files`, seek and read `size` bytes, assert the read is full, and
yield.  Returns the yielded items, the list of open value-file ids at each
yield (the generator's live handles while it is suspended there), the abort
reason if any, and the open handles at loop exit.

Since `fs` is a pure snapshot of the disk, a cached handle for an id implies
the earlier `open` of that id succeeded, so consulting `fs` before the cache
membership test is equivalent to the source's open-only-when-absent order. -/
def gen_loop (fs : ValueFiles) :
    List SegmentSequenceRow → List Nat →
    List (SegmentSequenceRow × List Nat) × List (List Nat) × Option GenAbort × List Nat
  | [], opened => ([], [], none, opened)
  | row :: rest, opened =>
    match fs row.value_file_id with
    | none => ([], [], some .ioError, opened)
    | some contents =>
      let opened' := if row.value_file_id ∈ opened then opened
                     else opened ++ [row.value_file_id]
      let encoded_segment :=
        (contents.drop row.value_file_offset).take row.size
      if encoded_segment.length = row.size then
        let r := gen_loop fs rest opened'
        ((row, encoded_segment) :: r.1, opened' :: r.2.1, r.2.2)
      else
        ([], [], some .assertFailed, opened')

/-- One complete run of the `generate_all_sequence_rows` generator. -/
structure GenRun where
  /-- The first yield: `(len(sequence_rows)-skip_count, skip_count, offset_residue)`. -/
  preamble : Nat × Nat × Nat
  /-- The `(sequence_row, encoded_segment)` yields, in order. -/
  items : List (SegmentSequenceRow × List Nat)
  /-- Open value-file ids at each item yield (the handles that stay open if the
  consumer abandons the generator at that yield). -/
  open_trace : List (List Nat)
  /-- `none` when the item loop completed normally, otherwise the exception
  that terminated the generator abnormally. -/
  abort : Option GenAbort
  /-- Open value-file ids after the generator terminated: the close loop at
  lines 253-254 runs only on normal completion; an abort leaves handles open. -/
  final_open : List Nat
  deriving DecidableEq, Repr

/-- The close loop (`reader.py` lines 253-254): close every cached handle. -/
def close_loop (opened : List Nat) : List Nat :=
  opened.foldl (fun live f => live.erase f) opened

/-- Core of `Reader.generate_all_sequence_rows` (`reader.py` lines 185-254)
given the sequence rows its query returned: compute the skip counts, yield the
preamble, then the remaining rows with their bytes, closing the cached value
files only when the item loop runs to completion. -/
def generate_run (block_size : Nat) (fs : ValueFiles)
    (sequence_rows : List SegmentSequenceRow) (block_offset : Nat) : GenRun :=
  let sc := skip_scan block_size block_offset sequence_rows 0 0
  let r := gen_loop fs (sequence_rows.drop sc.1) []
  { preamble := (sequence_rows.length - sc.1, sc.1, sc.2)
    items := r.1
    open_trace := r.2.1
    abort := r.2.2.1
    final_open :=
      match r.2.2.1 with
      | none => close_loop r.2.2.2
      | some _ => r.2.2.2 }

/-- The rows `generate_all_sequence_rows` iterates over: the non-handoff query
when `handoff_node_id` is `None`, else the handoff query
(`reader.py` lines 198-212). -/
def selected_sequence_rows (db : NodeDB)
    (segment_unified_id segment_conjoined_part segment_num : Nat)
    (handoff_node_id : Option Nat) : List SegmentSequenceRow :=
  match handoff_node_id with
  | none =>
    _all_sequence_rows_for_segment db segment_unified_id
      segment_conjoined_part segment_num
  | some hid =>
    _all_sequence_rows_for_handoff_segment db segment_unified_id
      segment_conjoined_part segment_num hid

/-- `Reader.generate_all_sequence_rows` (`reader.py` lines 185-254), as the
complete run of the generator (`encoded_block_slice_size` is imported from
`tools.data_definitions`, outside `src/`, so it is a parameter here). -/
def generate_all_sequence_rows (block_size : Nat) (db : NodeDB) (fs : ValueFiles)
    (segment_unified_id segment_conjoined_part segment_num : Nat)
    (handoff_node_id : Option Nat) (block_offset : Nat) : GenRun :=
  generate_run block_size fs
    (selected_sequence_rows db segment_unified_id segment_conjoined_part
      segment_num handoff_node_id)
    block_offset

/-! ## Director / Router (`src/web_director/web_director_main.py`)

Python 2 string operations are modelled on `String.data` (the list of
characters), which matches `str` semantics for the ASCII hostnames involved. -/

/-- Python `s.endswith(suffix)`. -/
def py_endswith (s suffix : String) : Bool :=
  List.isSuffixOf suffix.data s.data

/-- Python `s[:n]` for `0 ≤ n` (`n` already clamped). -/
def py_take (s : String) (n : Nat) : String :=
  String.mk (s.data.take n)

/-- Python `len(s)`. -/
def py_len (s : String) : Nat :=
  s.data.length

/-- `collections.deque.rotate(1)`: rotate one step to the right (the last
element moves to the front). -/
def rotate1 {α : Type} (l : List α) : List α :=
  l.drop (l.length - 1) ++ l.take (l.length - 1)

/-- A routing verdict returned to tproxy. -/
inductive Verdict where
  /-- `dict(remote = "host:port")` — proxy the connection to that backend. -/
  | remote (target : String)
  /-- `dict(close = "<code> <reason>")` — produced by `Router._reject`. -/
  | close (response : String)
  /-- `dict(close = True)` — produced by `proxy` itself. -/
  | closeConn
  deriving DecidableEq, Repr

/-- `Router._reject` (`web_director_main.py` lines 197-203):
`dict(close = "%d %s" % (code, reason))`. -/
def _reject (code : Nat) (reason : String) : Verdict :=
  .close (toString code ++ " " ++ reason)

/-- The cluster info dict built by `Router._db_cluster_info`:
`rows` are node rows `(name, hostname, node_number_in_cluster)` and `hosts`
is `deque([r[1] for r in rows])`. -/
structure ClusterInfo where
  rows : List (String × String × Nat)
  hosts : List String
  deriving DecidableEq, Repr

/-- The central database as seen through the router's connection: the result
rows of its two queries.  `collection_cluster` is
`select cluster_id from nimbusio_central.collection where name=%s`
(`fetch_one_row`); `cluster_nodes` is the node query's rows, already
`ORDER BY node_number_in_cluster` (SQL execution is outside `src/`). -/
structure CentralDB where
  collection_cluster : String → Option Nat
  cluster_nodes : Nat → List (String × String × Nat)

/-- The mutable state of a `Router` (after `init` has completed and
`init_complete` is set; every claim is about the initialized router).
`collection_queries` / `node_queries` instrument the two DB-touching methods
for the stampede-suppression claim. -/
structure RouterState where
  service_domain : String
  dest_port : Nat
  /-- `self.known_clusters` (a dict; assoc list, newest binding first). -/
  known_clusters : List (Nat × ClusterInfo)
  /-- `self.known_collections` (an LRU cache of capacity 500000; the claims
  stay far below the capacity, so eviction never fires and an assoc list with
  newest-first shadowing is observationally the dict/LRU). -/
  known_collections : List (String × Option Nat)
  /-- `self.management_api_request_dest_hosts` deque. -/
  management_api_request_dest_hosts : List String
  conn : CentralDB
  collection_queries : Nat
  node_queries : Nat

/-- `Router._parse_collection` (lines 138-141):
`hostname[:-(len(service_domain) + 1)]`. -/
def _parse_collection (st : RouterState) (hostname : String) : String :=
  py_take hostname (py_len hostname - (py_len st.service_domain + 1))

/-- `Router._db_cluster_for_collection`'s body (lines 151-159): run the
collection query and return `row[0]` if a row came back, else `None`. -/
def _db_cluster_for_collection (st : RouterState) (collection : String) :
    Option Nat × RouterState :=
  (st.conn.collection_cluster collection,
   { st with collection_queries := st.collection_queries + 1 })

/-- The cache-check closure passed by `_cluster_for_collection` (line 168):
`self.known_collections.get(collection, None)` — a cached `None` and an
absent key are indistinguishable to the closure. -/
def collection_cache_check (st : RouterState) (collection : String) : Option Nat :=
  (st.known_collections.lookup collection).join

/-- Python truthiness of the closure's result (`if result:` at line 86):
`None` and `0` are falsy. -/
def truthy_cluster_id : Option Nat → Bool
  | some c => c != 0
  | none => false

/-- `_supervise_db_interaction` applied to `_db_cluster_for_collection`
(lines 54-109): under the DB mutex, consult the cache-check closure and skip
the query on a (truthy) hit.  The gevent mutex serializes the supervised
bodies, so the embedding is the body run atomically; the retry loop for
`psycopg2.OperationalError` is not entered because the modelled connection
does not fail. -/
def _db_cluster_for_collection_supervised (st : RouterState) (collection : String) :
    Option Nat × RouterState :=
  let result := collection_cache_check st collection
  if truthy_cluster_id result then (result, st)
  else _db_cluster_for_collection st collection

/-- `Router._cluster_for_collection` (lines 161-170): return the cached
cluster id if present (even a cached `None`), else run the supervised query
and cache its result — `self.known_collections[collection] = result`. -/
def _cluster_for_collection (st : RouterState) (collection : String) :
    Option Nat × RouterState :=
  match st.known_collections.lookup collection with
  | some cached => (cached, st)
  | none =>
    let r := _db_cluster_for_collection_supervised st collection
    (r.1, { r.2 with known_collections := (collection, r.1) :: r.2.known_collections })

/-- `Router._db_cluster_info`'s body (lines 172-184): run the node query and
build `dict(rows=..., hosts=deque([r[1] for r in rows]))`. -/
def _db_cluster_info (st : RouterState) (cluster_id : Nat) :
    ClusterInfo × RouterState :=
  let rows := st.conn.cluster_nodes cluster_id
  ({ rows := rows, hosts := rows.map (fun r => r.2.1) },
   { st with node_queries := st.node_queries + 1 })

/-- `_supervise_db_interaction` applied to `_db_cluster_info`, with the
cache-check closure `self.known_clusters.get(cluster_id, None)` (line 192);
an info dict is non-empty, hence always truthy. -/
def _db_cluster_info_supervised (st : RouterState) (cluster_id : Nat) :
    ClusterInfo × RouterState :=
  match st.known_clusters.lookup cluster_id with
  | some info => (info, st)
  | none => _db_cluster_info st cluster_id

/-- `Router._cluster_info` (lines 186-195). -/
def _cluster_info (st : RouterState) (cluster_id : Nat) :
    ClusterInfo × RouterState :=
  match st.known_clusters.lookup cluster_id with
  | some info => (info, st)
  | none =>
    let r := _db_cluster_info_supervised st cluster_id
    (r.1, { r.2 with known_clusters := (cluster_id, r.1) :: r.2.known_clusters })

/-- `Router._hosts_for_collection` (lines 143-149).  The source returns the
cached info's `hosts` deque itself; `route` then rotates that shared deque in
place.  The embedding also returns the `cluster_id` so `route` can write the
rotated deque back into `known_clusters` (explicit state for the source's
aliasing). -/
def _hosts_for_collection (st : RouterState) (collection : String) :
    Option (Nat × ClusterInfo) × RouterState :=
  let r := _cluster_for_collection st collection
  match r.1 with
  | none => (none, r.2)
  | some cluster_id =>
    let r2 := _cluster_info r.2 cluster_id
    (some (cluster_id, r2.1), r2.2)

/-- `Router.route` (lines 205-245).  Faithful quirks:

* `hostname.endswith(self.service_domain)` does not require a dot before the
  suffix;
* the management branch rotates the management deque and takes its head;
* the `if collection is None:` test at lines 229-230 is unreachable (a slice
  is a string) and its computed reject is discarded by the source anyway;
* on an unknown collection (`hosts is None`) the source computes
  `self._reject(404, "Collection not found")` but DROPS it — there is no
  `return` — and falls through to `gevent.sleep(RETRY_DELAY)` followed by
  `return self._reject(500, "Retry later")`;
* an empty host deque also falls through to the 500 branch;
* `hosts[0]` of an empty deque would raise `IndexError`; no claim reaches the
  management branch with an empty deque, and `headD` supplies a dummy there. -/
def route (st : RouterState) (hostname : String) : Verdict × RouterState :=
  if py_endswith hostname st.service_domain = false then
    (_reject 404 "Not found", st)
  else if hostname = st.service_domain then
    let hosts := rotate1 st.management_api_request_dest_hosts
    (.remote (hosts.headD ""),
     { st with management_api_request_dest_hosts := hosts })
  else
    let collection := _parse_collection st hostname
    let r := _hosts_for_collection st collection
    match r.1 with
    | some (cluster_id, info) =>
      if info.hosts ≠ [] then
        let hosts := rotate1 info.hosts
        (.remote (hosts.headD "" ++ ":" ++ toString st.dest_port),
         { r.2 with known_clusters :=
            (cluster_id, { info with hosts := hosts }) :: r.2.known_clusters })
      else
        (_reject 500 "Retry later", r.2)
    | none =>
      (_reject 500 "Retry later", r.2)

/-- `n` successive `route(hostname)` calls against one router.  The claims'
"N concurrent calls" execute serially in the source: gevent is cooperative
and each supervised DB body holds the router's mutex from acquisition through
its query, so concurrent callers are admitted one at a time. -/
def routeN (hostname : String) : Nat → RouterState → RouterState
  | 0, st => st
  | n + 1, st => routeN hostname n (route st hostname).2

/-! ## The `proxy` entry point and its Host regex
(`web_director_main.py` lines 249-281)

`proxy` runs `re.findall("Host:\s*(.*?)(:(\d+))?\r\n", data)`.  The pattern is
embedded as a backtracking matcher with Python `re` semantics:

* `\s` is `[ \t\n\r\f\v]`; `\s*` is greedy with backtracking;
* `.` matches any character except `'\n'`; `(.*?)` is lazy (shortest first);
* `(:(\d+))?` prefers matching the group; `\d+` is greedy, and since a
  shorter digit run is necessarily followed by another digit (never `'\r'`),
  maximal munch needs no backtracking before the literal `\r\n`;
* when the input at the group position starts with `':'` and the group fails,
  the empty alternative also fails (`':' ≠ '\r'`), so failure is final there;
* `findall` scans left to right and resumes after each (non-empty) match. -/

/-- Python `\s` on `str`. -/
def py_isspace (c : Char) : Bool :=
  c == ' ' || c == '\t' || c == '\n' || c == '\r' ||
  c == Char.ofNat 11 || c == Char.ofNat 12

/-- The literal `\r\n` tail of the pattern. -/
def expectCRLF : List Char → Option (List Char)
  | '\r' :: '\n' :: rest => some rest
  | _ => none

/-- Matched groups 1-3 of the Host pattern: `(.*?)`, `(:(\d+))?`, `(\d+)`;
an unmatched optional group captures `''` (what `findall` reports). -/
structure HostGroups where
  hostname : List Char
  portGroup : List Char
  port : List Char
  deriving DecidableEq, Repr

/-- Attempt `(:(\d+))?\r\n` at `l`; returns groups 2 and 3 and the rest. -/
def match_port_tail (l : List Char) : Option (List Char × List Char × List Char) :=
  match l with
  | ':' :: rest =>
    let digits := rest.takeWhile Char.isDigit
    if digits.isEmpty then none
    else
      match expectCRLF (rest.dropWhile Char.isDigit) with
      | some r => some (':' :: digits, digits, r)
      | none => none
  | _ =>
    match expectCRLF l with
    | some r => some ([], [], r)
    | none => none

/-- The lazy `(.*?)` loop: try the tail at the current position first, else
consume one non-newline character into group 1 and retry. -/
def match_lazy_host (acc : List Char) : List Char → Option (HostGroups × List Char)
  | [] =>
    match match_port_tail [] with
    | some (g2, g3, rest) => some (⟨acc.reverse, g2, g3⟩, rest)
    | none => none
  | c :: cs =>
    match match_port_tail (c :: cs) with
    | some (g2, g3, rest) => some (⟨acc.reverse, g2, g3⟩, rest)
    | none =>
      if c == '\n' then none else match_lazy_host (c :: acc) cs

/-- The greedy `\s*` loop with backtracking: first try consuming further
whitespace, and only if the continuation fails stop the star here. -/
def match_ws_host : List Char → Option (HostGroups × List Char)
  | [] => match_lazy_host [] []
  | c :: cs =>
    if py_isspace c then
      match match_ws_host cs with
      | some r => some r
      | none => match_lazy_host [] (c :: cs)
    else match_lazy_host [] (c :: cs)

/-- Attempt the whole pattern anchored at the start of `l`. -/
def match_host_at (l : List Char) : Option (HostGroups × List Char) :=
  match l with
  | 'H' :: 'o' :: 's' :: 't' :: ':' :: rest => match_ws_host rest
  | _ => none

/-- The scan of `re.findall`: try each position left to right, resume after a
match.  Every match consumes at least the seven literal characters, so one
unit of fuel per input character suffices. -/
def find_host_matches : Nat → List Char → List HostGroups
  | 0, _ => []
  | fuel + 1, l =>
    match match_host_at l with
    | some (g, rest) => g :: find_host_matches fuel rest
    | none =>
      match l with
      | [] => []
      | _ :: cs => find_host_matches fuel cs

/-- `re.findall("Host:\s*(.*?)(:(\d+))?\r\n", data)`. -/
def findall_host (data : List Char) : List HostGroups :=
  find_host_matches data.length data

/-- The uncaught exception `proxy` can raise. -/
inductive PyExn where
  /-- `int('')` — the Host header had no port, so group 3 captured `''` and
  `port = int(port)` (line 266, before the `try`) raises `ValueError`. -/
  | valueError
  deriving DecidableEq, Repr

/-- `proxy(data)` (lines 249-281), parameterized by the module-global
router's `route` (the embedded `route` is total, so the `except` arm that
maps a routing exception to `dict(close=True)` is never taken).  `None`
(modelled `Option.none`) asks tproxy to call again with more data;
`matches.pop()` takes the LAST element of the `findall` list. -/
def proxy (route_fn : List Char → Verdict) (data : List Char) :
    Except PyExn (Option Verdict) :=
  let found := findall_host data
  match found.getLast? with
  | some g =>
    if g.port.isEmpty then .error .valueError
    else .ok (some (route_fn g.hostname))
  | none =>
    if data.length > 4096 then .ok (some .closeConn)
    else .ok none

/-! ## Fan-out Archiver (`src/diyapi_web_server/amqp_archiver.py`)

The message construction (`uuid.uuid1().hex`, `zlib.adler32`, `hashlib.md5`,
`messages.archive_key_entire.ArchiveKeyEntire`) and the AMQP transport live
outside `src/`; the returned value of `archive_entire` depends on them only
through the reply greenlets, so sending segment `i` to exchange
`exchanges[i]` and joining its reply is modelled by the oracle
`reply_for i exchange`, the greenlet's state after
`gevent.joinall(..., timeout=timeout)`. -/

/-- A joined reply greenlet: `ready` is `reply.ready()` after the join, and
`previous_size` is `reply.value.previous_size` (the reply body's field). -/
structure GreenletReply where
  ready : Bool
  previous_size : Nat
  deriving DecidableEq, Repr

/-- The exceptions `archive_entire` can raise. -/
inductive ArchiveFailure where
  /-- `self.exchanges[segment_number]` out of range. -/
  | indexError
  /-- `assert all(reply.ready() for ...)` failed: some reply timed out. -/
  | assertionError
  deriving DecidableEq, Repr

/-- The send loop (`amqp_archiver.py` lines 30-49): for each segment, in
segment-number order, dispatch to `self.exchanges[segment_number]` (via
`_exchanges_for_segment_number`, a singleton list) and collect one reply
greenlet; `none` models the `IndexError` of an out-of-range exchange. -/
def build_replies {α : Type} (reply_for : Nat → String → GreenletReply)
    (exchanges : List String) : Nat → List α → Option (List GreenletReply)
  | _, [] => some []
  | i, _ :: rest =>
    match exchanges[i]? with
    | none => none
    | some ex => (build_replies reply_for exchanges (i + 1) rest).map
        (fun rs => reply_for i ex :: rs)

/-- `AMQPArchiver.archive_entire` (`amqp_archiver.py` lines 27-54): send all
segments, join the replies with the caller's timeout, assert every reply is
ready, and return `sum(reply.value.previous_size for ...)`. -/
def archive_entire {α : Type} (reply_for : Nat → String → GreenletReply)
    (exchanges : List String) (segments : List α) : Except ArchiveFailure Nat :=
  match build_replies reply_for exchanges 0 segments with
  | none => .error .indexError
  | some replies =>
    if replies.all (fun r => r.ready) then
      .ok ((replies.map (fun r => r.previous_size)).sum)
    else .error .assertionError

/-! ## Concrete scenario data used by witnesses and counterexamples -/

/-- S1's router: suffix `svc.example`, web port 8088, collection `col-a`
already resolved to cluster 7 whose ordered hosts are `[n1, n2, n3]`. -/
def s1_state : RouterState :=
  { service_domain := "svc.example"
    dest_port := 8088
    known_clusters := [(7, { rows := [("node01", "n1", 1), ("node02", "n2", 2),
                                      ("node03", "n3", 3)],
                             hosts := ["n1", "n2", "n3"] })]
    known_collections := [("col-a", some 7)]
    management_api_request_dest_hosts := []
    conn := { collection_cluster := fun _ => none, cluster_nodes := fun _ => [] }
    collection_queries := 0
    node_queries := 0 }

/-- First S1 call. -/
def s1_call1 : Verdict × RouterState := route s1_state "col-a.svc.example"

/-- Second S1 call. -/
def s1_call2 : Verdict × RouterState := route s1_call1.2 "col-a.svc.example"

/-- Third S1 call. -/
def s1_call3 : Verdict × RouterState := route s1_call2.2 "col-a.svc.example"

/-- A router with empty caches over a central DB that knows no collections. -/
def empty_cache_state : RouterState :=
  { service_domain := "svc.example"
    dest_port := 8088
    known_clusters := []
    known_collections := []
    management_api_request_dest_hosts := []
    conn := { collection_cluster := fun _ => none, cluster_nodes := fun _ => [] }
    collection_queries := 0
    node_queries := 0 }

/-- A cold-cache router whose central DB maps `col-a` to cluster 7 with two
nodes (the stampede-suppression witness). -/
def cold_state : RouterState :=
  { empty_cache_state with
    conn := { collection_cluster := fun s => if s = "col-a" then some 7 else none
              cluster_nodes := fun cid =>
                if cid = 7 then [("node01", "n1", 1), ("node02", "n2", 2)] else [] } }

/-- S4's segment: three sequences of sizes 1024, 1024, 512 in value file 1. -/
def s4_db : NodeDB :=
  { segments := [⟨1, 77, 0, 1, none, 'F'⟩]
    sequences := [⟨1, 0, 1, 0, 1024⟩, ⟨1, 1, 1, 1024, 1024⟩, ⟨1, 2, 1, 2048, 512⟩] }

/-- S4's value file: 2560 bytes in file 1. -/
def s4_fs : ValueFiles := fun i => if i = 1 then some (List.replicate 2560 0) else none

/-- The S4 generator run: `block_size = 256`, `block_offset = 5`. -/
def s4_run : GenRun := generate_all_sequence_rows 256 s4_db s4_fs 77 0 1 none 5

/-- A segment whose single 4-byte sequence lives in value file 42, which
holds only 3 bytes — the read is short, so the generator's assert fails. -/
def short_db : NodeDB :=
  { segments := [⟨1, 88, 0, 1, none, 'F'⟩]
    sequences := [⟨1, 0, 42, 0, 4⟩] }

/-- The 3-byte value file 42. -/
def short_fs : ValueFiles := fun i => if i = 42 then some [1, 2, 3] else none

/-- The aborting generator run over `short_db`. -/
def short_run : GenRun := generate_all_sequence_rows 256 short_db short_fs 88 0 1 none 0

/-- A segment with two small sequences, fully backed by value file 5
(a run that completes normally). -/
def ok_db : NodeDB :=
  { segments := [⟨2, 99, 0, 3, none, 'F'⟩]
    sequences := [⟨2, 0, 5, 0, 10⟩, ⟨2, 1, 5, 10, 20⟩] }

/-- Value file 5 with 30 bytes. -/
def ok_fs : ValueFiles := fun i => if i = 5 then some (List.replicate 30 7) else none

/-- A segment whose sequence claims 10 bytes at offset 0 of value file 3,
which holds only 3 bytes (`retrieve_one_sequence`'s short read). -/
def c5short_db : NodeDB :=
  { segments := [⟨9, 5, 0, 1, none, 'F'⟩]
    sequences := [⟨9, 0, 3, 0, 10⟩] }

/-- The 3-byte value file 3. -/
def c5short_fs : ValueFiles := fun i => if i = 3 then some [1, 2, 3] else none

/-- A well-backed sequence for the `retrieve_one_sequence` witness: 4 bytes
at offset 2 of the 7-byte value file 3. -/
def c5ok_db : NodeDB :=
  { segments := [⟨9, 5, 0, 1, none, 'F'⟩]
    sequences := [⟨9, 0, 3, 2, 4⟩] }

/-- The 7-byte value file 3. -/
def c5ok_fs : ValueFiles := fun i => if i = 3 then some [10, 11, 12, 13, 14, 15, 16] else none

/-- A demonstration route function for the `proxy` claims: forward to the
parsed hostname. -/
def demo_route : List Char → Verdict := fun h => .remote (String.mk h)

/-- Two Host headers, the last one carrying a port. -/
def two_hosts_with_port : List Char := "Host: a.svc\r\nHost: b.svc:99\r\n".toList

/-- Two Host headers, the last one without a port. -/
def two_hosts_no_port : List Char := "Host: a.svc\r\nHost: b.svc\r\n".toList

/-- The S5 reply oracle: every reply ready with `previous_size = 100`. -/
def s5_reply : Nat → String → GreenletReply := fun _ _ => ⟨true, 100⟩

/-- The S5 exchange list (n = 5). -/
def s5_exchanges : List String := ["e0", "e1", "e2", "e3", "e4"]

/-- The S5 segments (5 erasure-coded payloads). -/
def s5_segments : List (List Nat) := [[0], [1], [2], [3], [4]]

/-- The router state after `_cluster_for_collection` misses its cache and the
supervised collection query runs: the query counter advances and the result
is cached (abbreviation for stating evaluation lemmas). -/
def st_after_collection_query (st : RouterState) (collection : String) : RouterState :=
  { st with collection_queries := st.collection_queries + 1,
            known_collections :=
              (collection, st.conn.collection_cluster collection)
                :: st.known_collections }

/-- The info dict `_db_cluster_info` builds for `cluster_id`. -/
def cluster_info_of (st : RouterState) (cluster_id : Nat) : ClusterInfo :=
  ⟨st.conn.cluster_nodes cluster_id,
   (st.conn.cluster_nodes cluster_id).map (fun r => r.2.1)⟩

/-- The router state after `_cluster_info` misses its cache and the supervised
node query runs. -/
def st_after_node_query (st : RouterState) (cluster_id : Nat) : RouterState :=
  { st with node_queries := st.node_queries + 1,
            known_clusters := (cluster_id, cluster_info_of st cluster_id)
              :: st.known_clusters }

/-- After a collection's lookup has been cached, the router's caches are warm
for it: the collection cache holds a result, and if that result is a cluster
id, the cluster cache holds its info.  A warm `route` call never queries. -/
def router_inv (collection : String) (st : RouterState) : Prop :=
  ∃ v, st.known_collections.lookup collection = some v ∧
    ∀ cid, v = some cid → ∃ info, st.known_clusters.lookup cid = some info


/-! ## Theorems

Each claim `Cn` of the specification review is settled by the theorem(s)
named `cn_theorem` / `cn_witness` / `cn_counterexample` below; the remaining
theorems are shared helper lemmas. -/

/-- The close loop at the end of a normal generation closes every open handle. -/
theorem close_loop_eq_nil (l : List Nat) : close_loop l = [] := by
  unfold close_loop
  induction l with
  | nil => rfl
  | cons a t ih =>
    rw [List.foldl_cons, List.erase_cons_head]
    exact ih

/-- The source's blocks-per-sequence formula is the ceiling division
`⌈size / block_size⌉` whenever the block size is positive. -/
theorem blocks_in_sequence_eq_ceil {block_size : Nat} (s : Nat) (hbs : 0 < block_size) :
    blocks_in_sequence block_size s = (s + block_size - 1) / block_size := by
  rcases Nat.eq_zero_or_pos s with rfl | hs
  · simp [blocks_in_sequence, Nat.div_eq_of_lt (show block_size - 1 < block_size by omega)]
  · have h1 : s + block_size - 1 = (s - 1) + block_size := by omega
    rw [blocks_in_sequence, h1, Nat.add_div_right _ hbs]
    have h2 := Nat.succ_div (s - 1) block_size
    have h3 : s - 1 + 1 = s := by omega
    rw [h3] at h2
    by_cases hz : s % block_size = 0
    · have hdvd : block_size ∣ s := Nat.dvd_of_mod_eq_zero hz
      simp [hz, h2, hdvd]
    · have hdvd : ¬ block_size ∣ s := by
        intro hd
        exact hz (Nat.dvd_iff_mod_eq_zero.mp hd)
      simp [hz, h2, hdvd]

/-- When the accumulated blocks plus all remaining blocks stay below
`block_offset`, the skip loop skips every row and leaves the residue 0. -/
theorem sum_skip (block_size block_offset : Nat) (rows : List SegmentSequenceRow)
    (block_count skip_count : Nat)
    (h : block_count + (rows.map (fun r => blocks_in_sequence block_size r.size)).sum
          < block_offset) :
    skip_scan block_size block_offset rows block_count skip_count
      = (skip_count + rows.length, 0) := by
  induction rows generalizing block_count skip_count with
  | nil => simp [skip_scan]
  | cons r rest ih =>
    simp only [List.map_cons, List.sum_cons] at h
    simp only [skip_scan]
    rw [if_pos (by omega)]
    rw [ih _ _ (by omega)]
    simp only [List.length_cons, Prod.mk.injEq]
    exact ⟨by omega, trivial⟩

/-- Total block count, in the source's formula and in ceiling form. -/
theorem sum_map_blocks_eq_sum_ceil {block_size : Nat} (hbs : 0 < block_size)
    (rows : List SegmentSequenceRow) :
    (rows.map (fun r => blocks_in_sequence block_size r.size)).sum
      = (rows.map (fun r => (r.size + block_size - 1) / block_size)).sum := by
  induction rows with
  | nil => rfl
  | cons r rest ih => simp [blocks_in_sequence_eq_ceil _ hbs, ih]

/-- C10 (confirmed): for every segment whose total block count (the sum over
its sequences of `⌈size_i / encoded_block_slice_size⌉`) is strictly below
`block_offset`, `generate_all_sequence_rows` emits the preamble
`(0, total_sequence_count, 0)` and yields no `(row, bytes)` items at all. -/
theorem c10_theorem (block_size : Nat) (db : NodeDB) (fs : ValueFiles)
    (u c n : Nat) (handoff : Option Nat) (block_offset : Nat)
    (hbs : 0 < block_size)
    (hlt : ((selected_sequence_rows db u c n handoff).map
        (fun r => (r.size + block_size - 1) / block_size)).sum < block_offset) :
    (generate_all_sequence_rows block_size db fs u c n handoff block_offset).preamble
      = (0, (selected_sequence_rows db u c n handoff).length, 0)
    ∧ (generate_all_sequence_rows block_size db fs u c n handoff block_offset).items
      = [] := by
  have hsum : 0 + ((selected_sequence_rows db u c n handoff).map
      (fun r => blocks_in_sequence block_size r.size)).sum < block_offset := by
    rw [sum_map_blocks_eq_sum_ceil hbs]
    omega
  have hskip := sum_skip block_size block_offset (selected_sequence_rows db u c n handoff)
    0 0 hsum
  unfold generate_all_sequence_rows generate_run
  rw [hskip]
  simp [List.drop_length, gen_loop]

/-- The send loop produces exactly one reply greenlet per segment. -/
theorem build_replies_length {α : Type} (reply_for : Nat → String → GreenletReply)
    (exchanges : List String) (i : Nat) (segments : List α) (replies : List GreenletReply)
    (h : build_replies reply_for exchanges i segments = some replies) :
    replies.length = segments.length := by
  induction segments generalizing i replies with
  | nil =>
    simp [build_replies] at h
    simp [← h]
  | cons a rest ih =>
    rw [build_replies] at h
    cases hex : exchanges[i]? with
    | none => rw [hex] at h; exact absurd h (by simp)
    | some ex =>
      rw [hex] at h
      cases hb : build_replies reply_for exchanges (i + 1) rest with
      | none => rw [hb] at h; exact absurd h (by simp)
      | some rs =>
        rw [hb] at h
        simp only [Option.map_some', Option.some.injEq] at h
        subst h
        simp [ih _ _ hb]

/-- C7, amended: every value file opened during one
`generate_all_sequence_rows` generation is closed when the stream completes
NORMALLY (the close loop runs after the item loop).  On abnormal termination
— an exception, or the consumer abandoning the generator at a yield — the
source has no `try/finally`, so the close loop never runs and the handles
leak (see the counterexample). -/
theorem c7_theorem (block_size : Nat) (db : NodeDB) (fs : ValueFiles)
    (u c n : Nat) (handoff : Option Nat) (block_offset : Nat)
    (h : (generate_all_sequence_rows block_size db fs u c n handoff block_offset).abort
          = none) :
    (generate_all_sequence_rows block_size db fs u c n handoff block_offset).final_open
      = [] := by
  unfold generate_all_sequence_rows generate_run at h ⊢
  dsimp only at h ⊢
  rw [h]
  exact close_loop_eq_nil _

/-- C7 witness: a concrete run that completes normally ends with no open
handles. -/
theorem c7_witness :
    (generate_all_sequence_rows 256 ok_db ok_fs 99 0 3 none 0).final_open = [] :=
  c7_theorem 256 ok_db ok_fs 99 0 3 none 0 (by decide)

/-- C6 (confirmed): when every reply greenlet is ready after the join (the
source asserts exactly this), `archive_entire` returns the sum of
`previous_size` over all reply bodies, and there is exactly one reply per
segment. -/
theorem c6_theorem {α : Type} (reply_for : Nat → String → GreenletReply)
    (exchanges : List String) (segments : List α) (replies : List GreenletReply)
    (hb : build_replies reply_for exchanges 0 segments = some replies)
    (hready : replies.all (fun r => r.ready) = true) :
    archive_entire reply_for exchanges segments
      = .ok ((replies.map (fun r => r.previous_size)).sum)
    ∧ replies.length = segments.length := by
  constructor
  · simp [archive_entire, hb, hready]
  · exact build_replies_length reply_for exchanges 0 segments replies hb

/-- C6 witness (scenario S5): n = 5 segments, every reply ready with
`previous_size = 100` — `archive_entire` returns 500. -/
theorem c6_witness :
    archive_entire s5_reply s5_exchanges s5_segments = .ok 500
    ∧ (5 : Nat) = 5 :=
  c6_theorem s5_reply s5_exchanges s5_segments
    (List.replicate 5 ⟨true, 100⟩) rfl rfl

/-- C5, amended: `retrieve_one_sequence` fails with `ReaderError` (NotFound)
when no sequence exists for a finalized non-handoff segment at the given
coordinates, fails with `IOError` when the value file is missing, and
otherwise returns the sequence row with the bytes read from
`value_file_offset` — `min(size, bytes available)` of them.  Contrary to the
claim, a SHORT read does not raise `IOError`: the source never checks the
length `file.read(size)` returned (see the counterexample). -/
theorem c5_theorem (db : NodeDB) (fs : ValueFiles) (u c n s : Nat) :
    (_sequence_row db u c n s = none →
      retrieve_one_sequence db fs u c n s = .error .readerError)
    ∧ (∀ row, _sequence_row db u c n s = some row →
        fs row.value_file_id = none →
        retrieve_one_sequence db fs u c n s = .error .ioError)
    ∧ (∀ row contents, _sequence_row db u c n s = some row →
        fs row.value_file_id = some contents →
        retrieve_one_sequence db fs u c n s
          = .ok (row, (contents.drop row.value_file_offset).take row.size)
        ∧ ((contents.drop row.value_file_offset).take row.size).length
          = min row.size (contents.length - row.value_file_offset)) := by
  refine ⟨fun h => ?_, fun row h1 h2 => ?_, fun row contents h1 h2 => ⟨?_, ?_⟩⟩
  · simp [retrieve_one_sequence, h]
  · simp [retrieve_one_sequence, h1, h2]
  · simp [retrieve_one_sequence, h1, h2]
  · simp [List.length_take, List.length_drop]

/-- C5 witness: a fully-backed sequence returns exactly `size` bytes. -/
theorem c5_witness :
    retrieve_one_sequence c5ok_db c5ok_fs 5 0 1 0
      = .ok (⟨9, 0, 3, 2, 4⟩, [12, 13, 14, 15])
    ∧ (4 : Nat) = min 4 5 :=
  (c5_theorem c5ok_db c5ok_fs 5 0 1 0).2.2 ⟨9, 0, 3, 2, 4⟩
    [10, 11, 12, 13, 14, 15, 16] rfl rfl

/-- C5, counterexample: a sequence of declared size 10 whose value file holds
only 3 bytes — `retrieve_one_sequence` returns the 3 bytes with `.ok`
instead of failing with `IOError` as the claim requires. -/
theorem c5_counterexample :
    retrieve_one_sequence c5short_db c5short_fs 5 0 1 0
      = .ok (⟨9, 0, 3, 0, 10⟩, [1, 2, 3])
    ∧ ([1, 2, 3] : List Nat).length < (10 : Nat) := by
  exact ⟨rfl, by decide⟩

/-- C3, counterexample: in scenario S4 (sizes [1024, 1024, 512], block size
256, block offset 5) the code computes `offset_residue = block_count -
block_offset = 8 - 5 = 3`, so the preamble is `(2, 1, 3)` — not `(2, 1, 1)`
as the claim states. -/
theorem c3_counterexample :
    s4_run.preamble = (2, 1, 3)
    ∧ ((2, 1, 3) : Nat × Nat × Nat) ≠ (2, 1, 1) := by
  exact ⟨by decide, by decide⟩

/-- C3, amended: the S4 run yields the preamble `(remaining = 2, skipped = 1,
offset_residue = 3)` and then exactly sequences 1 and 2, in ascending
`sequence_num` order, with no abnormal termination. -/
theorem c3_theorem :
    s4_run.preamble = (2, 1, 3)
    ∧ s4_run.items.map Prod.fst
      = [⟨1, 1, 1, 1024, 1024⟩, ⟨1, 2, 1, 2048, 512⟩]
    ∧ s4_run.abort = none := by
  refine ⟨by decide, by decide, by decide⟩

/-- C7, counterexample: a generation whose single 4-byte sequence gets a
3-byte (short) read — the assert fails, the stream terminates abnormally,
and the generator's open-handle set is `[42]`, not empty: the close loop is
only reached after normal completion.  (The same leak hits a consumer that
abandons the generator at a data-item yield: `open_trace` records the open
set at each yield.) -/
theorem c7_counterexample :
    short_run.abort = some .assertFailed
    ∧ short_run.open_trace = []
    ∧ short_run.final_open = [42]
    ∧ ([42] : List Nat) ≠ [] := by
  refine ⟨by decide, by decide, by decide, by decide⟩

/-- C1, counterexample: `deque.rotate(1)` rotates RIGHT (the last element
moves to the front), so the first S1 `route("col-a.svc.example")` call
forwards to `n3:8088`, not to `n2:8088` as the claim states. -/
theorem c1_counterexample :
    s1_call1.1 = .remote "n3:8088"
    ∧ Verdict.remote "n3:8088" ≠ .remote "n2:8088" := by
  exact ⟨by decide, by decide⟩

/-- C1, amended: three successive `route("col-a.svc.example")` calls against
the S1 router (hosts `[n1, n2, n3]`, web port 8088) forward to `n3:8088`,
then `n2:8088`, then `n1:8088` — rotate-by-one selects the LAST host first,
and the three calls visit each host exactly once. -/
theorem c1_theorem :
    (s1_call1.1, s1_call2.1, s1_call3.1)
      = (.remote "n3:8088", .remote "n2:8088", .remote "n1:8088") := by
  decide

/-- C2 (code bug): for a hostname whose collection is unknown to the central
database, the source computes `self._reject(404, "Collection not found")`
but DROPS it — the `return` is missing at lines 240-241 — and falls through
to the retry branch, so `route` returns `{close: "500 Retry later"}` instead
of the claimed `{close: "404 Collection not found"}`. -/
theorem c2_theorem :
    (route empty_cache_state "nosuch.svc.example").1 = .close "500 Retry later"
    ∧ (route empty_cache_state "nosuch.svc.example").1
        ≠ .close "404 Collection not found" := by
  exact ⟨by decide, by decide⟩

/-- C10 witness: a 2-sequence segment whose 2 total blocks are below a
block offset of 100. -/
theorem c10_witness :
    (generate_all_sequence_rows 256 ok_db ok_fs 99 0 3 none 100).preamble
      = (0, (selected_sequence_rows ok_db 99 0 3 none).length, 0)
    ∧ (generate_all_sequence_rows 256 ok_db ok_fs 99 0 3 none 100).items = [] :=
  c10_theorem 256 ok_db ok_fs 99 0 3 none 100 (by decide) (by decide)

/-- The Host pattern cannot match at a position that does not start with 'H'. -/
theorem match_host_at_cons_ne {c : Char} (cs : List Char) (hc : c ≠ 'H') :
    match_host_at (c :: cs) = none := by
  unfold match_host_at
  split
  · next heq => injection heq with h1 _; exact absurd h1 hc
  · rfl

/-- A buffer without any 'H' contains no Host-header match. -/
theorem find_host_matches_of_no_H (fuel : Nat) (l : List Char)
    (h : ∀ c ∈ l, c ≠ 'H') : find_host_matches fuel l = [] := by
  induction fuel generalizing l with
  | zero => rfl
  | succ n ih =>
    cases l with
    | nil => rfl
    | cons c cs =>
      have hc : c ≠ 'H' := h c (List.mem_cons_self c cs)
      rw [find_host_matches, match_host_at_cons_ne cs hc]
      exact ih cs (fun x hx => h x (List.mem_cons_of_mem c hx))

/-- `findall` on a buffer of 'a's finds nothing. -/
theorem findall_host_replicate_a (k : Nat) :
    findall_host (List.replicate k 'a') = [] :=
  find_host_matches_of_no_H _ _
    (fun c hc => by rw [List.eq_of_mem_replicate hc]; decide)

/-- C4, amended: for every input buffer with no Host-header match,
`proxy(data)` returns null while `len(data) ≤ 4096` and returns the
`{close}` verdict only once `len(data) > 4096`: the source tests
`len(data) > 4096`, a STRICT inequality, so at exactly the 4096-byte
threshold it still returns null (see the counterexample). -/
theorem c4_theorem (route_fn : List Char → Verdict) (data : List Char)
    (h : findall_host data = []) :
    (data.length ≤ 4096 → proxy route_fn data = .ok none)
    ∧ (4096 < data.length → proxy route_fn data = .ok (some .closeConn)) := by
  constructor <;> intro hlen
  · simp only [proxy, h, List.getLast?_nil]
    rw [if_neg (by omega)]
  · simp only [proxy, h, List.getLast?_nil]
    rw [if_pos (by omega)]

/-- C4 witness: a 10-byte buffer waits; a 4097-byte buffer is closed. -/
theorem c4_witness :
    proxy demo_route (List.replicate 10 'a') = .ok none
    ∧ proxy demo_route (List.replicate 4097 'a') = .ok (some .closeConn) :=
  ⟨(c4_theorem demo_route (List.replicate 10 'a') (findall_host_replicate_a 10)).1
      (by rw [List.length_replicate]; omega),
   (c4_theorem demo_route (List.replicate 4097 'a') (findall_host_replicate_a 4097)).2
      (by rw [List.length_replicate]; omega)⟩





/-- C4, counterexample: a buffer of exactly 4096 bytes with no Host header —
the claim says the 4096-byte threshold has been reached so `proxy` must
return `{close}`, but the source's `len(data) > 4096` is false and `proxy`
returns null. -/
theorem c4_counterexample :
    (List.replicate 4096 'a').length = 4096
    ∧ proxy demo_route (List.replicate 4096 'a') = .ok none := by
  constructor
  · exact List.length_replicate 4096 'a'
  · unfold proxy
    rw [findall_host_replicate_a, List.length_replicate]
    rfl
/-- C9, amended: when the buffer contains more than one Host-header match,
`proxy(data)` routes using the hostname of the LAST match
(`matches.pop()` takes the final element), PROVIDED that match carries an
explicit port; when the last match has no port, group 3 captures `''` and
`port = int(port)` — executed before the `try` — raises an uncaught
`ValueError` instead of routing (see the counterexample). -/
theorem c9_theorem (route_fn : List Char → Verdict) (data : List Char)
    (g : HostGroups)
    (hlast : (findall_host data).getLast? = some g)
    (_hmulti : 2 ≤ (findall_host data).length)
    (hport : g.port ≠ []) :
    proxy route_fn data = .ok (some (route_fn g.hostname)) := by
  unfold proxy
  dsimp only
  rw [hlast]
  show (if g.port.isEmpty = true then Except.error PyExn.valueError
        else Except.ok (some (route_fn g.hostname)))
      = Except.ok (some (route_fn g.hostname))
  rw [if_neg (by simpa [List.isEmpty_iff] using hport)]

/-- C9 witness: with two Host headers, the second carrying port 99, `proxy`
routes to the second hostname `b.svc`. -/
theorem c9_witness :
    proxy demo_route two_hosts_with_port = .ok (some (.remote "b.svc")) :=
  c9_theorem demo_route two_hosts_with_port
    ⟨"b.svc".toList, ":99".toList, "99".toList⟩
    (by decide) (by decide) (by decide)

/-- C9, counterexample: a buffer with two Host-header matches whose last
match has no port — `proxy` raises `ValueError` from `int('')` instead of
routing, so the claim fails as stated. -/
theorem c9_counterexample :
    (findall_host two_hosts_no_port).length = 2
    ∧ proxy demo_route two_hosts_no_port = .error .valueError := by
  exact ⟨by decide, rfl⟩

/-- A cache-missing `_cluster_for_collection` call runs the collection query
once and caches its result (even a `None`). -/
theorem cluster_for_collection_cold (st : RouterState) (c : String)
    (hmiss : st.known_collections.lookup c = none) :
    _cluster_for_collection st c
      = (st.conn.collection_cluster c, st_after_collection_query st c) := by
  unfold _cluster_for_collection _db_cluster_for_collection_supervised
    collection_cache_check truthy_cluster_id _db_cluster_for_collection
    st_after_collection_query
  rw [hmiss]
  rfl

/-- A cached collection (even a cached `None`) is returned without querying. -/
theorem cluster_for_collection_hit (st : RouterState) (c : String) (v : Option Nat)
    (hhit : st.known_collections.lookup c = some v) :
    _cluster_for_collection st c = (v, st) := by
  unfold _cluster_for_collection
  rw [hhit]

/-- A cached cluster info is returned without querying. -/
theorem cluster_info_hit (st : RouterState) (cid : Nat) (info : ClusterInfo)
    (hhit : st.known_clusters.lookup cid = some info) :
    _cluster_info st cid = (info, st) := by
  unfold _cluster_info
  rw [hhit]

/-- A cache-missing `_cluster_info` call runs the node query once and caches
the info dict. -/
theorem cluster_info_cold (st : RouterState) (cid : Nat)
    (hmiss : st.known_clusters.lookup cid = none) :
    _cluster_info st cid = (cluster_info_of st cid, st_after_node_query st cid) := by
  unfold _cluster_info _db_cluster_info_supervised _db_cluster_info
    cluster_info_of st_after_node_query
  rw [hmiss]
  rfl

/-- The first `route` call for an uncached collection: it runs the collection
query exactly once, the node query at most once, and leaves the caches warm
(`router_inv`). -/
theorem route_cold (st : RouterState) (hostname : String)
    (hend : py_endswith hostname st.service_domain = true)
    (hne : hostname ≠ st.service_domain)
    (hmiss : st.known_collections.lookup (_parse_collection st hostname) = none) :
    (route st hostname).2.collection_queries = st.collection_queries + 1
    ∧ (route st hostname).2.node_queries ≤ st.node_queries + 1
    ∧ router_inv (_parse_collection st hostname) (route st hostname).2
    ∧ (route st hostname).2.service_domain = st.service_domain := by
  unfold route
  rw [hend]
  rw [if_neg (by simp)]
  rw [if_neg hne]
  dsimp only
  unfold _hosts_for_collection
  rw [cluster_for_collection_cold st _ hmiss]
  dsimp only
  cases hdb : st.conn.collection_cluster (_parse_collection st hostname) with
  | none =>
    dsimp only [st_after_collection_query]
    refine ⟨rfl, Nat.le_succ _, ⟨none, ?_, ?_⟩, rfl⟩
    · rw [hdb]
      simp [List.lookup]
    · intro cid hcid; exact absurd hcid (by simp)
  | some cid =>
    dsimp only
    cases hcl : st.known_clusters.lookup cid with
    | some info =>
      rw [cluster_info_hit (st_after_collection_query st (_parse_collection st hostname))
            cid info hcl]
      dsimp only [st_after_collection_query]
      by_cases hh : info.hosts ≠ []
      · rw [if_pos hh]
        refine ⟨rfl, Nat.le_succ _, ⟨some cid, ?_, ?_⟩, rfl⟩
        · rw [hdb]
          simp [List.lookup]
        · intro cid2 h2
          obtain rfl : cid = cid2 := by simpa using h2
          exact ⟨{ rows := info.rows, hosts := rotate1 info.hosts }, by simp [List.lookup]⟩
      · rw [if_neg hh]
        refine ⟨rfl, Nat.le_succ _, ⟨some cid, ?_, ?_⟩, rfl⟩
        · rw [hdb]
          simp [List.lookup]
        · intro cid2 h2
          obtain rfl : cid = cid2 := by simpa using h2
          exact ⟨info, by simpa using hcl⟩
    | none =>
      rw [cluster_info_cold (st_after_collection_query st (_parse_collection st hostname))
            cid hcl]
      dsimp only [st_after_collection_query, st_after_node_query, cluster_info_of]
      by_cases hh : (st.conn.cluster_nodes cid).map (fun r => r.2.1) ≠ []
      · rw [if_pos hh]
        refine ⟨rfl, Nat.le_refl _, ⟨some cid, ?_, ?_⟩, rfl⟩
        · rw [hdb]
          simp [List.lookup]
        · intro cid2 h2
          obtain rfl : cid = cid2 := by simpa using h2
          exact ⟨{ rows := st.conn.cluster_nodes cid,
                   hosts := rotate1 ((st.conn.cluster_nodes cid).map (fun r => r.2.1)) },
                 by simp [List.lookup]⟩
      · rw [if_neg hh]
        refine ⟨rfl, Nat.le_refl _, ⟨some cid, ?_, ?_⟩, rfl⟩
        · rw [hdb]
          simp [List.lookup]
        · intro cid2 h2
          obtain rfl : cid = cid2 := by simpa using h2
          exact ⟨{ rows := st.conn.cluster_nodes cid,
                   hosts := (st.conn.cluster_nodes cid).map (fun r => r.2.1) },
                 by simp [List.lookup]⟩

/-- A `route` call with warm caches runs no query at all and keeps the
caches warm. -/
theorem route_warm (st : RouterState) (hostname : String)
    (hend : py_endswith hostname st.service_domain = true)
    (hne : hostname ≠ st.service_domain)
    (hinv : router_inv (_parse_collection st hostname) st) :
    (route st hostname).2.collection_queries = st.collection_queries
    ∧ (route st hostname).2.node_queries = st.node_queries
    ∧ router_inv (_parse_collection st hostname) (route st hostname).2
    ∧ (route st hostname).2.service_domain = st.service_domain := by
  obtain ⟨v, hv, hcl⟩ := hinv
  unfold route
  rw [hend]
  rw [if_neg (by simp)]
  rw [if_neg hne]
  dsimp only
  unfold _hosts_for_collection
  rw [cluster_for_collection_hit st _ v hv]
  dsimp only
  cases v with
  | none => exact ⟨rfl, rfl, ⟨none, hv, hcl⟩, rfl⟩
  | some cid =>
    dsimp only
    obtain ⟨info, hinfo⟩ := hcl cid rfl
    rw [cluster_info_hit st cid info hinfo]
    dsimp only
    by_cases hh : info.hosts ≠ []
    · rw [if_pos hh]
      refine ⟨rfl, rfl, ⟨some cid, hv, ?_⟩, rfl⟩
      intro cid2 h2
      obtain rfl : cid = cid2 := by simpa using h2
      exact ⟨{ rows := info.rows, hosts := rotate1 info.hosts }, by simp [List.lookup]⟩
    · rw [if_neg hh]
      refine ⟨rfl, rfl, ⟨some cid, hv, ?_⟩, rfl⟩
      intro cid2 h2
      obtain rfl : cid = cid2 := by simpa using h2
      exact ⟨info, hinfo⟩

/-- Any number of warm `route` calls run no query at all. -/
theorem routeN_warm (hostname : String) (m : Nat) : ∀ st : RouterState,
    py_endswith hostname st.service_domain = true →
    hostname ≠ st.service_domain →
    router_inv (_parse_collection st hostname) st →
    (routeN hostname m st).collection_queries = st.collection_queries
    ∧ (routeN hostname m st).node_queries = st.node_queries
    ∧ (routeN hostname m st).service_domain = st.service_domain := by
  induction m with
  | zero => exact fun st _ _ _ => ⟨rfl, rfl, rfl⟩
  | succ k ih =>
    intro st hend hne hinv
    have hw := route_warm st hostname hend hne hinv
    have hsd : (route st hostname).2.service_domain = st.service_domain := hw.2.2.2
    have hend' : py_endswith hostname (route st hostname).2.service_domain = true := by
      rw [hsd]; exact hend
    have hne' : hostname ≠ (route st hostname).2.service_domain := by
      rw [hsd]; exact hne
    have hparse : _parse_collection (route st hostname).2 hostname
        = _parse_collection st hostname := by
      unfold _parse_collection
      rw [hsd]
    have hinv' : router_inv (_parse_collection (route st hostname).2 hostname)
        (route st hostname).2 := by
      rw [hparse]; exact hw.2.2.1
    have hk := ih (route st hostname).2 hend' hne' hinv'
    have hstep : routeN hostname (k + 1) st = routeN hostname k (route st hostname).2 := rfl
    rw [hstep]
    exact ⟨hk.1.trans hw.1, hk.2.1.trans hw.2.1, hk.2.2.trans hsd⟩

/-- C8 (confirmed): N ≥ 1 concurrent `route(h)` calls for a collection whose
cluster id is not yet cached query the central database's collection table
EXACTLY once (and its node table at most once): the first acquirer of the DB
mutex queries and populates the cache, and every later acquirer finds the
populated cache and skips the query.  The gevent mutex is held across each
supervised body including its query, so the concurrent calls execute the
body serially, which `routeN` models. -/
theorem c8_theorem (st : RouterState) (hostname : String) (n : Nat)
    (hn : 0 < n)
    (hend : py_endswith hostname st.service_domain = true)
    (hne : hostname ≠ st.service_domain)
    (hmiss : st.known_collections.lookup (_parse_collection st hostname) = none) :
    (routeN hostname n st).collection_queries = st.collection_queries + 1
    ∧ (routeN hostname n st).node_queries ≤ st.node_queries + 1 := by
  obtain ⟨k, rfl⟩ : ∃ k, n = k + 1 := ⟨n - 1, by omega⟩
  have hc := route_cold st hostname hend hne hmiss
  have hsd := hc.2.2.2
  have hend' : py_endswith hostname (route st hostname).2.service_domain = true := by
    rw [hsd]; exact hend
  have hne' : hostname ≠ (route st hostname).2.service_domain := by
    rw [hsd]; exact hne
  have hparse : _parse_collection (route st hostname).2 hostname
      = _parse_collection st hostname := by
    unfold _parse_collection
    rw [hsd]
  have hinv' : router_inv (_parse_collection (route st hostname).2 hostname)
      (route st hostname).2 := by
    rw [hparse]; exact hc.2.2.1
  have hw := routeN_warm hostname k (route st hostname).2 hend' hne' hinv'
  have hstep : routeN hostname (k + 1) st = routeN hostname k (route st hostname).2 := rfl
  rw [hstep]
  constructor
  · rw [hw.1, hc.1]
  · rw [hw.2.1]; exact hc.2.1

/-- C8 witness: three calls against a cold router over a 2-node cluster
query each table once. -/
theorem c8_witness :
    (routeN "col-a.svc.example" 3 cold_state).collection_queries
      = cold_state.collection_queries + 1
    ∧ (routeN "col-a.svc.example" 3 cold_state).node_queries
      ≤ cold_state.node_queries + 1 :=
  c8_theorem cold_state "col-a.svc.example" 3 (by decide) (by decide) (by decide) rfl

end Nimbus
